import Mathlib

/-
Verification of the EthioPulse-Forecaster unified record store
(`src/data_utils.py` and `dashboard/data_loader.py`).

The pandas DataFrame is modelled as a `Table`: an ordered list of column
names together with a list of rows.  A row is an association list from
column name to `Value`; a key that is absent from a row denotes the
NaN/null cell that pandas produces when frames with different column sets
are concatenated.  All tables handled by the claims carry the default
RangeIndex, so a row's label is its position in the list.
-/

namespace EthioPulse

/-! Definitions: the embedding of the table, validators, mutators and
query helpers. -/

/-- Scalar cell values: strings, ints, floats (as rationals) and null/NaN. -/
inductive Value where
  | vstr : String → Value
  | vint : Int → Value
  | vfloat : Rat → Value
  | vnull : Value
deriving DecidableEq, Repr

/-- A row of the table: column name to value, missing key = null cell. -/
abbrev Row := List (String × Value)

/-- Reading a cell of a row; an absent key is the NaN produced by frame
alignment, so it reads as null. -/
def cell (r : Row) (c : String) : Value := (List.lookup c r).getD .vnull

/-- The in-memory DataFrame: ordered column names and rows (default
RangeIndex: label = position). -/
structure Table where
  cols : List String
  rows : List Row
deriving DecidableEq, Repr

def Table.empty : Table := ⟨[], []⟩

/-- pandas scalar equality `==`: numerically across int/float, NaN equal to
nothing (including itself). -/
def Value.peq : Value → Value → Bool
  | .vstr a, .vstr b => a == b
  | .vint a, .vint b => a == b
  | .vfloat a, .vfloat b => a == b
  | .vint a, .vfloat b => ((a : Rat) == b)
  | .vfloat a, .vint b => (a == (b : Rat))
  | _, _ => false

/-- Rows paired with their positional label, `df.iterrows()` style. -/
def Table.lrows (t : Table) : List (Nat × Row) := t.rows.enum

/-- `df[df['record_type'] == k]`: the labelled rows of one record kind
(callers must have checked that the discriminator column exists). -/
def ofKind (t : Table) (k : String) : List (Nat × Row) :=
  t.lrows.filter (fun x => Value.peq (cell x.2 "record_type") (.vstr k))

/-- Python dict insertion: replace the binding in place if the key exists,
otherwise append it (dicts preserve insertion order). -/
def dinsert (d : Row) (k : String) (v : Value) : Row :=
  if (List.lookup k d).isSome then
    d.map (fun p => if p.1 == k then (k, v) else p)
  else d ++ [(k, v)]

/-- Python `dict.update`: fold the updates left to right. -/
def dupdate (d : Row) (m : Row) : Row := m.foldl (fun acc p => dinsert acc p.1 p.2) d

/-- The `for col in df.columns: if col not in new_record: new_record[col] = None`
loop of the three `add_*` functions. -/
def fillCols (d : Row) (cols : List String) : Row :=
  cols.foldl (fun acc c => if (List.lookup c acc).isSome then acc else acc ++ [(c, .vnull)]) d

def rowKeys (d : Row) : List String := d.map Prod.fst

/-- Column set of `pd.concat([df, pd.DataFrame([rec])])`: the existing
columns followed by the record's new keys in their insertion order. -/
def concatCols (cols : List String) (d : Row) : List String :=
  cols ++ (rowKeys d).filter (fun k => !cols.contains k)

/-- `df.loc[idx, c]`: label-based lookup, KeyError when the column is
absent or the label is not in the (default Range-) index. -/
def locCell (df : Table) (idx : Int) (c : String) : Except String Value :=
  if !df.cols.contains c then .error "KeyError: column"
  else if decide (0 ≤ idx) && decide (idx.toNat < df.rows.length) then
    .ok (cell (df.rows.getD idx.toNat []) c)
  else .error "KeyError: label"

/-- The row actually appended by an `add_*` call: merge the metadata into
the fresh record (`new_record.update(metadata)`, skipped on a falsy empty
dict) and null-fill the table columns the record does not set. -/
def mkRecordRow (base metadata : Row) (cols : List String) : Row :=
  fillCols (if metadata.isEmpty then base else dupdate base metadata) cols

/-- Builds the appended table shared by the three `add_*` functions. -/
def appendRecord (df : Table) (base metadata : Row) : Table :=
  ⟨concatCols df.cols (mkRecordRow base metadata df.cols),
   df.rows ++ [mkRecordRow base metadata df.cols]⟩

/-- The `new_record` dict literal of `add_observation` (lines 224-231). -/
def obsBase (year : Int) (value : Rat) (pillar source_type confidence : String) : Row :=
  [("record_type", .vstr "observation"), ("year", .vint year), ("value", .vfloat value),
   ("pillar", .vstr pillar), ("source_type", .vstr source_type),
   ("confidence", .vstr confidence)]

/-- The `new_record` dict literal of `add_event` (lines 281-289); it has no
pillar key. -/
def eventBase (year : Int) (event_name event_type source_type confidence : String) : Row :=
  [("record_type", .vstr "event"), ("year", .vint year), ("event_name", .vstr event_name),
   ("event_type", .vstr event_type), ("source_type", .vstr source_type),
   ("confidence", .vstr confidence)]

/-- The `new_record` dict literal of `add_impact_link` (lines 342-348). -/
def linkBase (source_event_idx target_observation_idx : Int)
    (impact_direction confidence : String) : Row :=
  [("record_type", .vstr "impact_link"), ("source_event", .vint source_event_idx),
   ("target_observation", .vint target_observation_idx),
   ("impact_direction", .vstr impact_direction), ("confidence", .vstr confidence)]

/-- `add_observation` (src/data_utils.py lines 187-244). -/
def add_observation (df : Table) (year : Int) (value : Rat) (pillar source_type confidence : String)
    (metadata : Row) : Except String Table :=
  if !(pillar == "access" || pillar == "usage") then
    .error "ValueError: Pillar must be access or usage"
  else
    .ok (appendRecord df (obsBase year value pillar source_type confidence) metadata)

/-- `add_event` (src/data_utils.py lines 247-302); it has no failure path. -/
def add_event (df : Table) (year : Int) (event_name event_type source_type confidence : String)
    (metadata : Row) : Table :=
  appendRecord df (eventBase year event_name event_type source_type confidence) metadata

/-- `add_impact_link` (src/data_utils.py lines 305-361): the two `df.loc`
reads and kind checks happen before the record is built. -/
def add_impact_link (df : Table) (source_event_idx target_observation_idx : Int)
    (impact_direction confidence : String) (metadata : Row) : Except String Table :=
  match locCell df source_event_idx "record_type" with
  | .error e => .error e
  | .ok s =>
    if s ≠ .vstr "event" then .error "ValueError: source index is not an event"
    else
      match locCell df target_observation_idx "record_type" with
      | .error e => .error e
      | .ok tv =>
        if tv ≠ .vstr "observation" then .error "ValueError: target index is not an observation"
        else
          .ok (appendRecord df
            (linkBase source_event_idx target_observation_idx impact_direction confidence)
            metadata)

/-- Success test for the fallible operations. -/
def okB {ε α : Type} : Except ε α → Bool
  | .ok _ => true
  | .error _ => false

/-- The six admissible record kinds. -/
def validTypes : List String :=
  ["observation", "event", "impact_link", "target", "baseline", "forecast"]

/-- `value.isin(valid_types)` for one cell (NaN is in no list). -/
def isValidType (v : Value) : Bool := validTypes.any (fun s => Value.peq v (.vstr s))

/-- `UnifiedSchemaValidator.validate_record_type` (lines 30-40). -/
def validate_record_type (df : Table) : Bool :=
  if !df.cols.contains "record_type" then false
  else
    let invalid := df.rows.filter (fun r => !isValidType (cell r "record_type"))
    if invalid.length > 0 then false else true

/-- `UnifiedSchemaValidator.validate_events_no_pillar` (lines 42-57). -/
def validate_events_no_pillar (df : Table) : Bool :=
  if df.rows.isEmpty || !df.cols.contains "record_type" then true
  else
    let events := ofKind df "event"
    if events.length > 0 && df.cols.contains "pillar" then
      if events.any (fun x => cell x.2 "pillar" ≠ .vnull) then false else true
    else true

/-- `UnifiedSchemaValidator.validate_impact_links` (lines 59-85): the
unresolved-reference scans feed logging only; every branch returns true. -/
def validate_impact_links (df : Table) : Bool :=
  if df.rows.isEmpty || !df.cols.contains "record_type" then true
  else
    let links := ofKind df "impact_link"
    if links.isEmpty then true
    else
      let eventIdx := (ofKind df "event").map Prod.fst
      let obsIdx := (ofKind df "observation").map Prod.fst
      let _invalidEvents :=
        if df.cols.contains "source_event" then
          links.filter (fun x => !eventIdx.any (fun i => Value.peq (cell x.2 "source_event") (.vint i)))
        else []
      let _invalidObs :=
        if df.cols.contains "target_observation" then
          links.filter (fun x => !obsIdx.any (fun i => Value.peq (cell x.2 "target_observation") (.vint i)))
        else []
      true

/-- Numeric cell (int or float). -/
def Value.isNum : Value → Bool
  | .vint _ => true
  | .vfloat _ => true
  | _ => false

def Value.toRat? : Value → Option Rat
  | .vint n => some (n : Rat)
  | .vfloat q => some q
  | _ => none

def Value.strOf? : Value → Option String
  | .vstr s => some s
  | _ => none

/-- Truncation toward zero, Python `int(float)`. -/
def ratTrunc (q : Rat) : Int := Int.tdiv q.num (q.den : Int)

def digitVal (c : Char) : Option Nat :=
  let n := c.toNat
  if 48 ≤ n ∧ n ≤ 57 then some (n - 48) else none

def parseNatAux : List Char → Nat → Option Nat
  | [], acc => some acc
  | c :: cs, acc =>
    match digitVal c with
    | some d => parseNatAux cs (acc * 10 + d)
    | none => none

/-- Python `int(string)` on a plain signed decimal literal (surrounding
whitespace and underscore separators are not modelled; no claim uses
them). -/
def pyParseInt (s : String) : Option Int :=
  match s.data with
  | [] => none
  | '-' :: cs => if cs.isEmpty then none else (parseNatAux cs 0).map (fun n => -(n : Int))
  | '+' :: cs => if cs.isEmpty then none else (parseNatAux cs 0).map (fun n => (n : Int))
  | cs => (parseNatAux cs 0).map (fun n => (n : Int))

/-- Python string `<`: lexicographic on code points. -/
def charListLt : List Char → List Char → Bool
  | [], [] => false
  | [], _ :: _ => true
  | _ :: _, [] => false
  | a :: as, b :: bs =>
    if a.toNat < b.toNat then true
    else if b.toNat < a.toNat then false
    else charListLt as bs

def strLt (a b : String) : Bool := charListLt a.data b.data

/-- Python `int(x)` on a scalar: ints pass, floats truncate, strings must
parse as an integer literal, anything else raises. -/
def pyIntOf : Value → Except String Int
  | .vint n => .ok n
  | .vfloat q => .ok (ratTrunc q)
  | .vstr s =>
    match pyParseInt s with
    | some n => .ok n
    | none => .error "ValueError: int() literal"
  | .vnull => .error "ValueError: int() of NaN"

def listMinRat : List Rat → Option Rat
  | [] => none
  | q :: qs => some (qs.foldl min q)

def listMaxRat : List Rat → Option Rat
  | [] => none
  | q :: qs => some (qs.foldl max q)

def listMinStr : List String → Option String
  | [] => none
  | s :: ss => some (ss.foldl (fun a b => if strLt b a then b else a) s)

def listMaxStr : List String → Option String
  | [] => none
  | s :: ss => some (ss.foldl (fun a b => if strLt a b then b else a) s)

/-- `Series.min` over the non-null values of an object column: numeric
values compare numerically, strings lexicographically, and comparing a
string against a number raises TypeError, as Python `<` does. -/
def seriesMin (vs : List Value) : Except String Value :=
  if vs.all Value.isNum then
    match listMinRat (vs.filterMap Value.toRat?) with
    | some q => .ok (.vfloat q)
    | none => .error "ValueError: min of empty sequence"
  else if vs.all (fun v => (Value.strOf? v).isSome) then
    match listMinStr (vs.filterMap Value.strOf?) with
    | some s => .ok (.vstr s)
    | none => .error "ValueError: min of empty sequence"
  else .error "TypeError: unorderable mixed types"

/-- `Series.max`, dual to `seriesMin`. -/
def seriesMax (vs : List Value) : Except String Value :=
  if vs.all Value.isNum then
    match listMaxRat (vs.filterMap Value.toRat?) with
    | some q => .ok (.vfloat q)
    | none => .error "ValueError: max of empty sequence"
  else if vs.all (fun v => (Value.strOf? v).isSome) then
    match listMaxStr (vs.filterMap Value.strOf?) with
    | some s => .ok (.vstr s)
    | none => .error "ValueError: max of empty sequence"
  else .error "TypeError: unorderable mixed types"

def pySeriesMinInt (vs : List Value) : Except String Int :=
  match seriesMin vs with
  | .error e => .error e
  | .ok v => pyIntOf v

def pySeriesMaxInt (vs : List Value) : Except String Int :=
  match seriesMax vs with
  | .error e => .error e
  | .ok v => pyIntOf v

/-- The whole column `df[c]` as stored values. -/
def colValues (t : Table) (c : String) : List Value := t.rows.map (fun r => cell r c)

/-- `Series.value_counts().to_dict()`: distinct non-null values with their
multiplicities (dict ordering is immaterial; first occurrence order here). -/
def valueCounts (vs : List Value) : List (Value × Nat) :=
  let nn := vs.filter (fun v => !(v == .vnull))
  nn.dedup.map (fun v => (v, nn.count v))

/-- Result record of `quantify_dataset_composition`. -/
structure Stats where
  total_records : Nat
  by_record_type : List (Value × Nat)
  by_pillar : List (Value × Nat)
  by_source_type : List (Value × Nat)
  by_confidence : List (Value × Nat)
  year_min : Option Int
  year_max : Option Int
deriving DecidableEq, Repr

/-- `quantify_dataset_composition` (lines 158-184).  Every grouped count is
guarded on column presence and non-emptiness; the only failing path is the
`int(df['year'].min())` / `max` conversion. -/
def quantify_dataset_composition (df : Table) : Except String Stats :=
  let brt :=
    if df.cols.contains "record_type" && decide (0 < df.rows.length) then
      valueCounts (colValues df "record_type")
    else []
  let bp :=
    if df.cols.contains "record_type" && df.cols.contains "pillar"
        && decide (0 < (ofKind df "observation").length) then
      valueCounts ((ofKind df "observation").map (fun x => cell x.2 "pillar"))
    else []
  let bst :=
    if df.cols.contains "source_type" && decide (0 < df.rows.length) then
      valueCounts (colValues df "source_type")
    else []
  let bc :=
    if df.cols.contains "confidence" && decide (0 < df.rows.length) then
      valueCounts (colValues df "confidence")
    else []
  let hasYear := df.cols.contains "year" && decide (0 < df.rows.length)
      && (colValues df "year").any (fun v => !(v == .vnull))
  if hasYear then
    let ys := (colValues df "year").filter (fun v => !(v == .vnull))
    match pySeriesMinInt ys, pySeriesMaxInt ys with
    | .ok mn, .ok mx =>
      .ok ⟨df.rows.length, brt, bp, bst, bc, some mn, some mx⟩
    | .error e, _ => .error e
    | _, .error e => .error e
  else
    .ok ⟨df.rows.length, brt, bp, bst, bc, none, none⟩

/-- `get_observations_by_pillar` (lines 380-397): both column accesses can
raise KeyError, whatever the row count. -/
def get_observations_by_pillar (df : Table) (pillar : String) :
    Except String (List (Nat × Row)) :=
  if !df.cols.contains "record_type" then .error "KeyError: record_type"
  else
    let obs := ofKind df "observation"
    if !df.cols.contains "pillar" then .error "KeyError: pillar"
    else .ok (obs.filter (fun x => Value.peq (cell x.2 "pillar") (.vstr pillar)))

/-- `get_events_by_year` (lines 400-419). -/
def get_events_by_year (df : Table) (year : Option Int) :
    Except String (List (Nat × Row)) :=
  if !df.cols.contains "record_type" then .error "KeyError: record_type"
  else
    let events := ofKind df "event"
    match year with
    | none => .ok events
    | some y =>
      if !df.cols.contains "year" then .error "KeyError: year"
      else .ok (events.filter (fun x => Value.peq (cell x.2 "year") (.vint y)))

/-- `get_impact_links_for_event` (lines 422-439). -/
def get_impact_links_for_event (df : Table) (event_idx : Int) :
    Except String (List (Nat × Row)) :=
  if !df.cols.contains "record_type" then .error "KeyError: record_type"
  else
    let links := ofKind df "impact_link"
    if !df.cols.contains "source_event" then .error "KeyError: source_event"
    else .ok (links.filter (fun x => Value.peq (cell x.2 "source_event") (.vint event_idx)))

/-- One summary row produced by `get_events_with_impacts`. -/
structure SummaryRow where
  event_name : Value
  event_year : Value
  indicator : Value
  direction : Value
  magnitude : Value
  lag_months : Value
deriving DecidableEq, Repr

/-- `dict.get` over a key/value list built by `.to_dict()`: the last
binding of a key wins, and key identity is Python `==` (numeric across
int/float, NaN never equal). -/
def dictGet (d : List (Value × Value)) (k : Value) : Option Value :=
  (d.reverse.find? (fun p => Value.peq p.1 k)).map Prod.snd

/-- `Series.get(c, dflt)` on a row: the default applies only when the
column is absent from the frame; a null cell is returned as is. -/
def rowGetD (t : Table) (r : Row) (c : String) (dflt : Value) : Value :=
  if t.cols.contains c then cell r c else dflt

/-- Python `int(float(x))` used on the link references; a null has been
excluded by the caller's `pd.isna` check.  Non-integer numeric strings are
not modelled (no claim exercises them). -/
def toIntCast : Value → Option Int
  | .vint n => some n
  | .vfloat q => some (ratTrunc q)
  | .vstr s => pyParseInt s
  | .vnull => none

/-- `pd.to_numeric(_, errors="coerce")` on one scalar (again restricted to
integer string literals, which is all the claims need). -/
def coerceNum : Value → Value
  | .vint n => .vint n
  | .vfloat q => .vfloat q
  | .vstr s =>
    match pyParseInt s with
    | some n => .vint n
    | none => .vnull
  | .vnull => .vnull

/-- `get_events_with_impacts` (dashboard/data_loader.py lines 94-144).
When the table has no `record_id` column the row reference is taken to be
the 1-based CSV row number (`obs.index + 1`), even though `add_impact_link`
stores 0-based positional indices. -/
def get_events_with_impacts (df : Table) : Except String (List SummaryRow) :=
  if !df.cols.contains "record_type" then .error "KeyError: record_type"
  else
    let obs := ofKind df "observation"
    let events := ofKind df "event"
    let links := ofKind df "impact_link"
    if obs.isEmpty || events.isEmpty || links.isEmpty then .ok []
    else
      let ridOf : Nat × Row → Value := fun x =>
        if !df.cols.contains "record_id" && decide (0 < df.cols.length) then .vint (x.1 + 1)
        else cell x.2 "record_id"
      if !df.cols.contains "pillar" then .error "KeyError: pillar"
      else
        let id_to_pillar := obs.map (fun x => (ridOf x, cell x.2 "pillar"))
        let event_id_to_name :=
          if df.cols.contains "event_name" then
            events.map (fun x => (ridOf x, cell x.2 "event_name"))
          else []
        if !df.cols.contains "year" then .error "KeyError: year"
        else
          let event_id_to_year := events.map (fun x => (ridOf x, cell x.2 "year"))
          let process : Nat × Row → Option SummaryRow := fun x =>
            let r := x.2
            let se := rowGetD df r "source_event" .vnull
            let tob := rowGetD df r "target_observation" .vnull
            if se == .vnull || tob == .vnull then none
            else
              match toIntCast se, toIntCast tob with
              | some sei, some toi =>
                let indicator := (dictGet id_to_pillar (.vint toi)).getD (.vstr "Unknown")
                let name0 := dictGet event_id_to_name (.vint sei)
                let nameFallback : Value :=
                  match events.filter (fun y => Value.peq (ridOf y) (.vint sei)) with
                  | y :: _ =>
                    if df.cols.contains "event_type" then cell y.2 "event_type"
                    else .vstr ("Event " ++ toString sei)
                  | [] => .vstr ("Event " ++ toString sei)
                let name :=
                  match name0 with
                  | some v => if v == .vnull then nameFallback else v
                  | none => nameFallback
                some { event_name := name,
                       event_year := (dictGet event_id_to_year (.vint sei)).getD .vnull,
                       indicator := indicator,
                       direction := rowGetD df r "impact_direction" (.vstr "positive"),
                       magnitude := rowGetD df r "impact_magnitude" .vnull,
                       lag_months := rowGetD df r "lag_months" .vnull }
              | _, _ => none
          let out := links.filterMap process
          if out.isEmpty then .ok []
          else .ok (out.map (fun s => { s with event_year := coerceNum s.event_year }))

/-- Spec invariants 3-4: the stored reference resolves (by position) to a
row of the required kind. -/
def refValOk (t : Table) (v : Value) (kind : String) : Bool :=
  match v with
  | .vint i => decide (0 ≤ i) && decide (i.toNat < t.rows.length)
      && (cell (t.rows.getD i.toNat []) "record_type" == .vstr kind)
  | _ => false

def rowOk1 (r : Row) : Bool := isValidType (cell r "record_type")

def rowOk2 (r : Row) : Bool :=
  !(cell r "record_type" == .vstr "event") || (cell r "pillar" == .vnull)

def rowOk3 (t : Table) (r : Row) : Bool :=
  !(cell r "record_type" == .vstr "impact_link") || refValOk t (cell r "source_event") "event"

def rowOk4 (t : Table) (r : Row) : Bool :=
  !(cell r "record_type" == .vstr "impact_link")
    || refValOk t (cell r "target_observation") "observation"

def rowOk5 (r : Row) : Bool :=
  !(cell r "record_type" == .vstr "observation")
    || (cell r "pillar" == .vstr "access" || cell r "pillar" == .vstr "usage")

/-- The five data-model invariants of the spec, checked on every row. -/
def invariants (t : Table) : Bool :=
  t.rows.all (fun r => rowOk1 r && rowOk2 r && rowOk3 t r && rowOk4 t r && rowOk5 r)

/-- Reference check: the claim-level test that an index resolves to a row
of a given kind (column present, index in range, matching discriminator). -/
def refOk (t : Table) (i : Int) (kind : String) : Bool :=
  t.cols.contains "record_type" && decide (0 ≤ i) && decide (i.toNat < t.rows.length)
    && (cell (t.rows.getD i.toNat []) "record_type" == .vstr kind)

def restrictedKeys : List String :=
  ["record_type", "pillar", "source_event", "target_observation"]

/-- Witness table for claim C2: all consulted columns present, no rows. -/
def tC2w : Table := ⟨["record_type", "pillar", "year", "source_event"], []⟩

/-- Witness table for claim C3: one event (null pillar), one observation. -/
def tC3w : Table := ⟨["record_type", "pillar"],
  [[("record_type", .vstr "event"), ("pillar", .vnull)],
   [("record_type", .vstr "observation"), ("pillar", .vstr "access")]]⟩

/-- Base table for the C3 counterexample, built by the code itself. -/
def tC3a : Table := add_event Table.empty 2020 "E" "policy" "s" "high" []

/-- Witness table for claim C4: an event row and an observation row. -/
def tC4w : Table := ⟨["record_type"],
  [[("record_type", .vstr "event")], [("record_type", .vstr "observation")]]⟩

/-- Witness table for claim C10. -/
def tC10w : Table := ⟨["record_type"],
  [[("record_type", .vstr "event")], [("record_type", .vstr "observation")]]⟩

/-- Witness table for claim C7: observation and year present, no pillar. -/
def tC7w : Table :=
  ⟨["record_type", "year"], [[("record_type", .vstr "observation"), ("year", .vint 2020)]]⟩

/-- The composition stats the code computes for `tC7w`. -/
def sC7w : Stats := ⟨1, [(.vstr "observation", 1)], [], [], [], some 2020, some 2020⟩

/-- The C1 pipeline: event, then observation, then the connecting link,
built from the empty table exactly as the claim prescribes. -/
def demoT1 : Table := add_event Table.empty 2020 "Policy X" "policy" "gov" "high" []

def demoT2 : Table :=
  match add_observation demoT1 2020 40 "access" "survey" "high" [] with
  | .ok t => t
  | .error _ => Table.empty

def demoT3 : Table :=
  match add_impact_link demoT2 0 1 "positive" "high" [] with
  | .ok t => t
  | .error _ => Table.empty

/-! Theorems: supporting lemmas followed by the claim theorems, their
witnesses and counterexamples. -/

theorem lookup_append (k : String) (l1 l2 : Row) :
    List.lookup k (l1 ++ l2) = ((List.lookup k l1).orElse fun _ => List.lookup k l2) := by
  induction l1 with
  | nil => simp [List.lookup]
  | cons p l ih =>
    obtain ⟨pk, pv⟩ := p
    simp only [List.cons_append, List.lookup]
    cases h : k == pk <;> simp [h, ih]

theorem lookup_map_replace (d : Row) (k q : String) (v : Value) (h : ¬ k = q) :
    List.lookup k (d.map (fun p => if p.1 == q then (q, v) else p)) = List.lookup k d := by
  induction d with
  | nil => rfl
  | cons p l ih =>
    obtain ⟨pk, pv⟩ := p
    simp only [List.map]
    by_cases hq : pk = q
    · rw [if_pos (by simp [hq] : ((pk, pv).1 == q) = true)]
      subst hq
      have hk : (k == pk) = false := by simp [h]
      simp only [List.lookup, hk]
      simpa using ih
    · rw [if_neg (by simp [hq] : ¬ ((pk, pv).1 == q) = true)]
      cases hk : k == pk
      · simp only [List.lookup, hk]
        simpa using ih
      · simp [List.lookup, hk]

theorem lookup_dinsert_ne (d : Row) (k q : String) (v : Value) (h : ¬ k = q) :
    List.lookup k (dinsert d q v) = List.lookup k d := by
  unfold dinsert
  split
  · exact lookup_map_replace d k q v h
  · rw [lookup_append]
    have h2 : List.lookup k [(q, v)] = none := by
      simp [List.lookup, show (k == q) = false from by simp [h]]
    rw [h2]
    cases List.lookup k d <;> rfl

theorem lookup_dupdate_none (d m : Row) (k : String) (hm : List.lookup k m = none) :
    List.lookup k (dupdate d m) = List.lookup k d := by
  induction m generalizing d with
  | nil => rfl
  | cons p m ih =>
    obtain ⟨pk, pv⟩ := p
    have hk : (k == pk) = false := by
      cases hkb : k == pk
      · rfl
      · simp [List.lookup, hkb] at hm
    have hm2 : List.lookup k m = none := by
      simpa [List.lookup, hk] using hm
    show List.lookup k (dupdate (dinsert d pk pv) m) = List.lookup k d
    rw [ih (dinsert d pk pv) hm2, lookup_dinsert_ne]
    simpa using hk

theorem cell_fillCols (d : Row) (cols : List String) (k : String) :
    cell (fillCols d cols) k = cell d k := by
  induction cols generalizing d with
  | nil => rfl
  | cons c cs ih =>
    show cell (fillCols (if (List.lookup c d).isSome then d else d ++ [(c, .vnull)]) cs) k
        = cell d k
    by_cases hc : (List.lookup c d).isSome
    · rw [if_pos hc, ih]
    · rw [if_neg hc, ih]
      unfold cell
      rw [lookup_append]
      by_cases hk : k = c
      · subst hk
        have hn : List.lookup k d = none := by
          cases hl : List.lookup k d
          · rfl
          · exact absurd (by simp [hl]) hc
        simp [hn, List.lookup]
      · have h2 : List.lookup k [(c, Value.vnull)] = none := by
          simp [List.lookup, show (k == c) = false from by simp [hk]]
        rw [h2]
        cases List.lookup k d <;> rfl

theorem cell_mkRecordRow (base m : Row) (cols : List String) (k : String)
    (hm : List.lookup k m = none) :
    cell (mkRecordRow base m cols) k = cell base k := by
  unfold mkRecordRow
  rw [cell_fillCols]
  by_cases he : m.isEmpty
  · rw [if_pos he]
  · rw [if_neg he]
    unfold cell
    rw [lookup_dupdate_none base m k hm]

theorem refValOk_append (t : Table) (cs : List String) (nr : Row) (v : Value) (k : String)
    (h : refValOk t v k = true) :
    refValOk ⟨cs, t.rows ++ [nr]⟩ v k = true := by
  cases v with
  | vint i =>
    unfold refValOk at h ⊢
    simp only [Bool.and_eq_true, decide_eq_true_eq] at h ⊢
    obtain ⟨⟨h0, hlen⟩, hc⟩ := h
    refine ⟨⟨h0, ?_⟩, ?_⟩
    · show i.toNat < (t.rows ++ [nr]).length
      simp only [List.length_append]
      omega
    · show (cell ((t.rows ++ [nr]).getD i.toNat []) "record_type" == .vstr k) = true
      rw [List.getD_append _ _ _ _ hlen]
      exact hc
  | vstr s => simp [refValOk] at h
  | vfloat q => simp [refValOk] at h
  | vnull => simp [refValOk] at h

theorem rowOk3_append (t : Table) (cs : List String) (nr : Row) (r : Row)
    (h : rowOk3 t r = true) : rowOk3 ⟨cs, t.rows ++ [nr]⟩ r = true := by
  unfold rowOk3 at h ⊢
  cases hb : (cell r "record_type" == Value.vstr "impact_link")
  · simp [hb]
  · rw [hb] at h
    simp only [Bool.not_true, Bool.false_or] at h ⊢
    exact refValOk_append t cs nr _ _ h

theorem rowOk4_append (t : Table) (cs : List String) (nr : Row) (r : Row)
    (h : rowOk4 t r = true) : rowOk4 ⟨cs, t.rows ++ [nr]⟩ r = true := by
  unfold rowOk4 at h ⊢
  cases hb : (cell r "record_type" == Value.vstr "impact_link")
  · simp [hb]
  · rw [hb] at h
    simp only [Bool.not_true, Bool.false_or] at h ⊢
    exact refValOk_append t cs nr _ _ h

theorem invariants_append (t : Table) (cs : List String) (nr : Row)
    (ht : invariants t = true)
    (h1 : rowOk1 nr = true) (h2 : rowOk2 nr = true)
    (h3 : rowOk3 ⟨cs, t.rows ++ [nr]⟩ nr = true)
    (h4 : rowOk4 ⟨cs, t.rows ++ [nr]⟩ nr = true)
    (h5 : rowOk5 nr = true) :
    invariants ⟨cs, t.rows ++ [nr]⟩ = true := by
  unfold invariants at ht ⊢
  rw [List.all_eq_true] at ht ⊢
  intro r hr
  rcases List.mem_append.mp hr with hold | hnew
  · have := ht r hold
    simp only [Bool.and_eq_true] at this ⊢
    exact ⟨⟨⟨⟨this.1.1.1.1, this.1.1.1.2⟩,
      rowOk3_append t cs nr r this.1.1.2⟩, rowOk4_append t cs nr r this.1.2⟩, this.2⟩
  · have hr' : r = nr := by simpa using hnew
    subst hr'
    simp only [Bool.and_eq_true]
    exact ⟨⟨⟨⟨h1, h2⟩, h3⟩, h4⟩, h5⟩

theorem okB_eq_true_iff {ε α : Type} (x : Except ε α) : okB x = true ↔ ∃ a, x = .ok a := by
  cases x <;> simp [okB]

theorem locCell_ok_elim (t : Table) (i : Int) (c : String) (v : Value)
    (h : locCell t i c = .ok v) :
    t.cols.contains c = true ∧ 0 ≤ i ∧ i.toNat < t.rows.length ∧
      v = cell (t.rows.getD i.toNat []) c := by
  unfold locCell at h
  cases hc : t.cols.contains c
  · rw [hc] at h; simp at h
  · rw [hc] at h
    simp only [Bool.not_true, Bool.false_eq_true, if_false] at h
    by_cases hb : (decide (0 ≤ i) && decide (i.toNat < t.rows.length)) = true
    · rw [if_pos hb] at h
      injection h with h
      simp only [Bool.and_eq_true, decide_eq_true_eq] at hb
      exact ⟨rfl, hb.1, hb.2, h.symm⟩
    · rw [if_neg hb] at h
      simp at h

theorem locCell_ok_intro (t : Table) (i : Int) (c : String)
    (hc : t.cols.contains c = true) (h0 : 0 ≤ i) (hlen : i.toNat < t.rows.length) :
    locCell t i c = .ok (cell (t.rows.getD i.toNat []) c) := by
  unfold locCell
  rw [hc]
  simp only [Bool.not_true, Bool.false_eq_true, if_false]
  rw [if_pos (by simp [h0, hlen])]

/-- What a successful `add_impact_link` tells us about its inputs and output. -/
theorem add_impact_link_ok_elim (t : Table) (se tgt : Int) (d c : String) (m : Row) (t' : Table)
    (h : add_impact_link t se tgt d c m = .ok t') :
    t.cols.contains "record_type" = true ∧
    0 ≤ se ∧ se.toNat < t.rows.length ∧
    cell (t.rows.getD se.toNat []) "record_type" = .vstr "event" ∧
    0 ≤ tgt ∧ tgt.toNat < t.rows.length ∧
    cell (t.rows.getD tgt.toNat []) "record_type" = .vstr "observation" ∧
    t' = appendRecord t (linkBase se tgt d c) m := by
  unfold add_impact_link at h
  cases hse : locCell t se "record_type" with
  | error e => rw [hse] at h; simp at h
  | ok sv =>
    rw [hse] at h
    dsimp only at h
    by_cases hsv : sv = Value.vstr "event"
    · rw [if_neg (fun hne => hne hsv)] at h
      cases htg : locCell t tgt "record_type" with
      | error e => rw [htg] at h; simp at h
      | ok tv =>
        rw [htg] at h
        dsimp only at h
        by_cases htv : tv = Value.vstr "observation"
        · rw [if_neg (fun hne => hne htv)] at h
          injection h with h
          obtain ⟨hc1, h0s, hls, hvs⟩ := locCell_ok_elim t se "record_type" sv hse
          obtain ⟨_, h0t, hlt, hvt⟩ := locCell_ok_elim t tgt "record_type" tv htg
          exact ⟨hc1, h0s, hls, by rw [← hvs, hsv], h0t, hlt, by rw [← hvt, htv], h.symm⟩
        · rw [if_pos htv] at h
          simp at h
    · rw [if_pos hsv] at h
      simp at h

theorem add_impact_link_ok_intro (t : Table) (se tgt : Int) (d c : String) (m : Row)
    (hse : refOk t se "event" = true) (htg : refOk t tgt "observation" = true) :
    add_impact_link t se tgt d c m = .ok (appendRecord t (linkBase se tgt d c) m) := by
  unfold refOk at hse htg
  simp only [Bool.and_eq_true, decide_eq_true_eq, beq_iff_eq] at hse htg
  obtain ⟨⟨⟨hc1, h0s⟩, hls⟩, hvs⟩ := hse
  obtain ⟨⟨⟨_, h0t⟩, hlt⟩, hvt⟩ := htg
  unfold add_impact_link
  rw [locCell_ok_intro t se "record_type" hc1 h0s hls, hvs]
  dsimp only
  rw [if_neg (fun hne => hne rfl)]
  rw [locCell_ok_intro t tgt "record_type" hc1 h0t hlt, hvt]
  dsimp only
  rw [if_neg (fun hne => hne rfl)]

theorem add_observation_ok_elim (t : Table) (y : Int) (v : Rat) (p st c : String) (m : Row)
    (t' : Table) (h : add_observation t y v p st c m = .ok t') :
    (p = "access" ∨ p = "usage") ∧ t' = appendRecord t (obsBase y v p st c) m := by
  unfold add_observation at h
  by_cases hp : (p == "access" || p == "usage") = true
  · rw [if_neg (by simp [hp])] at h
    injection h with h
    exact ⟨by simpa using hp, h.symm⟩
  · have h1 : (!(p == "access" || p == "usage")) = true := by
      cases hb : (p == "access" || p == "usage")
      · rfl
      · exact absurd hb hp
    rw [if_pos h1] at h
    simp at h

/-- Claim C3 (amended): for every table satisfying the five data-model
invariants, every successful `add_observation`, `add_event` or
`add_impact_link` whose metadata mapping binds none of the keys
`record_type`, `pillar`, `source_event`, `target_observation` yields a
table that still satisfies all five invariants. -/
theorem claim_C3_amended (t : Table) (m : Row)
    (ht : invariants t = true)
    (hm : ∀ k ∈ restrictedKeys, List.lookup k m = none) :
    (∀ (y : Int) (v : Rat) (p st c : String) (t' : Table),
        add_observation t y v p st c m = .ok t' → invariants t' = true) ∧
    (∀ (y : Int) (en et st c : String),
        invariants (add_event t y en et st c m) = true) ∧
    (∀ (se tgt : Int) (d c : String) (t' : Table),
        add_impact_link t se tgt d c m = .ok t' → invariants t' = true) := by
  have hmrt : List.lookup "record_type" m = none := hm _ (by simp [restrictedKeys])
  have hmp : List.lookup "pillar" m = none := hm _ (by simp [restrictedKeys])
  have hmse : List.lookup "source_event" m = none := hm _ (by simp [restrictedKeys])
  have hmto : List.lookup "target_observation" m = none := hm _ (by simp [restrictedKeys])
  refine ⟨?_, ?_, ?_⟩
  · intro y v p st c t' h
    obtain ⟨hor, ht'⟩ := add_observation_ok_elim t y v p st c m t' h
    subst ht'
    have cRT : cell (mkRecordRow (obsBase y v p st c) m t.cols) "record_type"
        = .vstr "observation" := by rw [cell_mkRecordRow _ _ _ _ hmrt]; rfl
    have cP : cell (mkRecordRow (obsBase y v p st c) m t.cols) "pillar" = .vstr p := by
      rw [cell_mkRecordRow _ _ _ _ hmp]; rfl
    unfold appendRecord
    refine invariants_append t _ _ ht ?_ ?_ ?_ ?_ ?_
    · unfold rowOk1; rw [cRT]; rfl
    · unfold rowOk2; rw [cRT]; rfl
    · unfold rowOk3; rw [cRT]; rfl
    · unfold rowOk4; rw [cRT]; rfl
    · unfold rowOk5; rw [cRT, cP]
      rcases hor with rfl | rfl <;> rfl
  · intro y en et st c
    have cRT : cell (mkRecordRow (eventBase y en et st c) m t.cols) "record_type"
        = .vstr "event" := by rw [cell_mkRecordRow _ _ _ _ hmrt]; rfl
    have cP : cell (mkRecordRow (eventBase y en et st c) m t.cols) "pillar" = .vnull := by
      rw [cell_mkRecordRow _ _ _ _ hmp]; rfl
    unfold add_event appendRecord
    refine invariants_append t _ _ ht ?_ ?_ ?_ ?_ ?_
    · unfold rowOk1; rw [cRT]; rfl
    · unfold rowOk2; rw [cRT, cP]; rfl
    · unfold rowOk3; rw [cRT]; rfl
    · unfold rowOk4; rw [cRT]; rfl
    · unfold rowOk5; rw [cRT]; rfl
  · intro se tgt d c t' h
    obtain ⟨hc1, h0s, hls, hvs, h0t, hlt, hvt, ht'⟩ :=
      add_impact_link_ok_elim t se tgt d c m t' h
    subst ht'
    have cRT : cell (mkRecordRow (linkBase se tgt d c) m t.cols) "record_type"
        = .vstr "impact_link" := by rw [cell_mkRecordRow _ _ _ _ hmrt]; rfl
    have cSE : cell (mkRecordRow (linkBase se tgt d c) m t.cols) "source_event"
        = .vint se := by rw [cell_mkRecordRow _ _ _ _ hmse]; rfl
    have cTO : cell (mkRecordRow (linkBase se tgt d c) m t.cols) "target_observation"
        = .vint tgt := by rw [cell_mkRecordRow _ _ _ _ hmto]; rfl
    unfold appendRecord
    refine invariants_append t _ _ ht ?_ ?_ ?_ ?_ ?_
    · unfold rowOk1; rw [cRT]; rfl
    · unfold rowOk2; rw [cRT]; rfl
    · unfold rowOk3; rw [cRT, cSE]
      have hbase : refValOk t (.vint se) "event" = true := by
        unfold refValOk
        dsimp only
        rw [hvs]
        simp [h0s, hls]
      have := refValOk_append t
        (concatCols t.cols (mkRecordRow (linkBase se tgt d c) m t.cols))
        (mkRecordRow (linkBase se tgt d c) m t.cols) (.vint se) "event" hbase
      simpa using this
    · unfold rowOk4; rw [cRT, cTO]
      have hbase : refValOk t (.vint tgt) "observation" = true := by
        unfold refValOk
        dsimp only
        rw [hvt]
        simp [h0t, hlt]
      have := refValOk_append t
        (concatCols t.cols (mkRecordRow (linkBase se tgt d c) m t.cols))
        (mkRecordRow (linkBase se tgt d c) m t.cols) (.vint tgt) "observation" hbase
      simpa using this
    · unfold rowOk5; rw [cRT]; rfl

/-- Claim C4: for every table and pair of row references, `add_impact_link`
fails unless the source reference resolves to an `event` row and the target
reference to an `observation` row; when both resolve it succeeds and
appends the link row. -/
theorem claim_C4 (t : Table) (se tgt : Int) (d c : String) (m : Row) :
    (okB (add_impact_link t se tgt d c m) = true ↔
      (refOk t se "event" = true ∧ refOk t tgt "observation" = true)) ∧
    (refOk t se "event" = true → refOk t tgt "observation" = true →
      add_impact_link t se tgt d c [] = .ok (appendRecord t (linkBase se tgt d c) []) ∧
      (appendRecord t (linkBase se tgt d c) []).rows
        = t.rows ++ [mkRecordRow (linkBase se tgt d c) [] t.cols] ∧
      cell (mkRecordRow (linkBase se tgt d c) [] t.cols) "record_type" = .vstr "impact_link" ∧
      cell (mkRecordRow (linkBase se tgt d c) [] t.cols) "source_event" = .vint se ∧
      cell (mkRecordRow (linkBase se tgt d c) [] t.cols) "target_observation" = .vint tgt) := by
  constructor
  · constructor
    · intro h
      obtain ⟨t', ht'⟩ := (okB_eq_true_iff _).mp h
      obtain ⟨hc1, h0s, hls, hvs, h0t, hlt, hvt, _⟩ :=
        add_impact_link_ok_elim t se tgt d c m t' ht'
      constructor
      · unfold refOk; rw [hvs, hc1]; simp [h0s, hls]
      · unfold refOk; rw [hvt, hc1]; simp [h0t, hlt]
    · rintro ⟨hse, htg⟩
      rw [add_impact_link_ok_intro t se tgt d c m hse htg]
      rfl
  · intro hse htg
    refine ⟨add_impact_link_ok_intro t se tgt d c [] hse htg, rfl, ?_, ?_, ?_⟩
    · rw [cell_mkRecordRow (linkBase se tgt d c) [] t.cols "record_type" rfl]; rfl
    · rw [cell_mkRecordRow (linkBase se tgt d c) [] t.cols "source_event" rfl]; rfl
    · rw [cell_mkRecordRow (linkBase se tgt d c) [] t.cols "target_observation" rfl]; rfl

/-- Claim C10: for any event/observation reference pair and arbitrary
strings d and c, `add_impact_link` succeeds and stores `impact_direction = d`
and `confidence = c` unchecked (no enumeration is enforced on either). -/
theorem claim_C10 (t : Table) (e o : Int) (d c : String)
    (he : refOk t e "event" = true) (ho : refOk t o "observation" = true) :
    add_impact_link t e o d c [] = .ok (appendRecord t (linkBase e o d c) []) ∧
    (appendRecord t (linkBase e o d c) []).rows
      = t.rows ++ [mkRecordRow (linkBase e o d c) [] t.cols] ∧
    cell (mkRecordRow (linkBase e o d c) [] t.cols) "impact_direction" = .vstr d ∧
    cell (mkRecordRow (linkBase e o d c) [] t.cols) "confidence" = .vstr c := by
  refine ⟨add_impact_link_ok_intro t e o d c [] he ho, rfl, ?_, ?_⟩
  · rw [cell_mkRecordRow (linkBase e o d c) [] t.cols "impact_direction" rfl]; rfl
  · rw [cell_mkRecordRow (linkBase e o d c) [] t.cols "confidence" rfl]; rfl

theorem okB_ite_ok {e a : Type} (c : Prop) [Decidable c] (x y : a) :
    okB (if c then (Except.ok x : Except e a) else .ok y) = true := by
  split <;> rfl

/-- Claim C2 (amended): each read helper returns a possibly-empty result
and never raises provided the table contains `record_type` and the columns
the helper filters or projects on (`pillar`; `year` when a year filter is
given; `source_event`; `pillar` and `year` for the dashboard join). -/
theorem claim_C2_amended (df : Table) (p : String) (y i : Int) :
    (df.cols.contains "record_type" = true → df.cols.contains "pillar" = true →
      okB (get_observations_by_pillar df p) = true) ∧
    (df.cols.contains "record_type" = true → okB (get_events_by_year df none) = true) ∧
    (df.cols.contains "record_type" = true → df.cols.contains "year" = true →
      okB (get_events_by_year df (some y)) = true) ∧
    (df.cols.contains "record_type" = true → df.cols.contains "source_event" = true →
      okB (get_impact_links_for_event df i) = true) ∧
    (df.cols.contains "record_type" = true → df.cols.contains "pillar" = true →
      df.cols.contains "year" = true → okB (get_events_with_impacts df) = true) := by
  refine ⟨?_, ?_, ?_, ?_, ?_⟩
  · intro h1 h2
    unfold get_observations_by_pillar
    rw [h1, h2]
    rfl
  · intro h1
    unfold get_events_by_year
    rw [h1]
    rfl
  · intro h1 h2
    unfold get_events_by_year
    rw [h1, h2]
    rfl
  · intro h1 h2
    unfold get_impact_links_for_event
    rw [h1, h2]
    rfl
  · intro h1 h2 h3
    unfold get_events_with_impacts
    rw [h1, h2, h3]
    simp only [Bool.not_true, Bool.false_eq_true, if_false]
    split
    · rfl
    · exact okB_ite_ok _ _ _

theorem seriesMin_num_ok (vs : List Value) (hne : vs ≠ [])
    (hnum : vs.all Value.isNum = true) : ∃ q, seriesMin vs = .ok (.vfloat q) := by
  unfold seriesMin
  rw [if_pos hnum]
  cases vs with
  | nil => exact absurd rfl hne
  | cons v rest =>
    have hv : Value.isNum v = true := List.all_eq_true.mp hnum v (by simp)
    cases v with
    | vint n =>
      exact ⟨(rest.filterMap Value.toRat?).foldl min (n : Rat),
        by simp [List.filterMap_cons, Value.toRat?, listMinRat]⟩
    | vfloat q =>
      exact ⟨(rest.filterMap Value.toRat?).foldl min q,
        by simp [List.filterMap_cons, Value.toRat?, listMinRat]⟩
    | vstr s => simp [Value.isNum] at hv
    | vnull => simp [Value.isNum] at hv

theorem seriesMax_num_ok (vs : List Value) (hne : vs ≠ [])
    (hnum : vs.all Value.isNum = true) : ∃ q, seriesMax vs = .ok (.vfloat q) := by
  unfold seriesMax
  rw [if_pos hnum]
  cases vs with
  | nil => exact absurd rfl hne
  | cons v rest =>
    have hv : Value.isNum v = true := List.all_eq_true.mp hnum v (by simp)
    cases v with
    | vint n =>
      exact ⟨(rest.filterMap Value.toRat?).foldl max (n : Rat),
        by simp [List.filterMap_cons, Value.toRat?, listMaxRat]⟩
    | vfloat q =>
      exact ⟨(rest.filterMap Value.toRat?).foldl max q,
        by simp [List.filterMap_cons, Value.toRat?, listMaxRat]⟩
    | vstr s => simp [Value.isNum] at hv
    | vnull => simp [Value.isNum] at hv

theorem pySeriesMinInt_ok (vs : List Value) (hne : vs ≠ [])
    (hnum : vs.all Value.isNum = true) : ∃ n, pySeriesMinInt vs = .ok n := by
  obtain ⟨q, hq⟩ := seriesMin_num_ok vs hne hnum
  exact ⟨ratTrunc q, by unfold pySeriesMinInt; rw [hq]; rfl⟩

theorem pySeriesMaxInt_ok (vs : List Value) (hne : vs ≠ [])
    (hnum : vs.all Value.isNum = true) : ∃ n, pySeriesMaxInt vs = .ok n := by
  obtain ⟨q, hq⟩ := seriesMax_num_ok vs hne hnum
  exact ⟨ratTrunc q, by unfold pySeriesMaxInt; rw [hq]; rfl⟩

/-- Claim C7 (amended): `quantify_dataset_composition` never raises
provided every non-null `year` value is numeric; on the empty table it
returns zero records, empty groupings and a None/None year range; and on
any table lacking the `pillar` column a successful call returns an empty
`by_pillar`, even when `record_type`/`observation` rows exist. -/
theorem claim_C7_amended (t : Table) (s : Stats) :
    ((∀ v ∈ colValues t "year", v = .vnull ∨ Value.isNum v = true) →
      okB (quantify_dataset_composition t) = true) ∧
    quantify_dataset_composition Table.empty = .ok ⟨0, [], [], [], [], none, none⟩ ∧
    (t.cols.contains "pillar" = false → quantify_dataset_composition t = .ok s →
      s.by_pillar = []) := by
  refine ⟨?_, by rfl, ?_⟩
  · intro hy
    unfold quantify_dataset_composition
    dsimp only
    by_cases hY : (t.cols.contains "year" && decide (0 < t.rows.length)
        && (colValues t "year").any (fun v => !(v == Value.vnull))) = true
    · rw [if_pos hY]
      have hne : (colValues t "year").filter (fun v => !(v == Value.vnull)) ≠ [] := by
        simp only [Bool.and_eq_true] at hY
        obtain ⟨_, hany⟩ := hY
        rw [List.any_eq_true] at hany
        obtain ⟨v, hvmem, hvnn⟩ := hany
        exact List.ne_nil_of_mem (List.mem_filter.mpr ⟨hvmem, hvnn⟩)
      have hnum : ((colValues t "year").filter (fun v => !(v == Value.vnull))).all
          Value.isNum = true := by
        rw [List.all_eq_true]
        intro v hv
        have hmem := List.mem_filter.mp hv
        rcases hy v hmem.1 with hnull | hn
        · rw [hnull] at hmem
          simp at hmem
        · exact hn
      obtain ⟨mn, hmn⟩ := pySeriesMinInt_ok _ hne hnum
      obtain ⟨mx, hmx⟩ := pySeriesMaxInt_ok _ hne hnum
      rw [hmn, hmx]
      rfl
    · rw [if_neg hY]
      rfl
  · intro hp hq
    unfold quantify_dataset_composition at hq
    dsimp only at hq
    by_cases hY : (t.cols.contains "year" && decide (0 < t.rows.length)
        && (colValues t "year").any (fun v => !(v == Value.vnull))) = true
    · rw [if_pos hY] at hq
      cases hmn : pySeriesMinInt ((colValues t "year").filter (fun v => !(v == Value.vnull))) with
      | error e =>
        rw [hmn] at hq
        cases hmx : pySeriesMaxInt ((colValues t "year").filter (fun v => !(v == Value.vnull))) with
        | error e2 => rw [hmx] at hq; simp at hq
        | ok mx => rw [hmx] at hq; simp at hq
      | ok mn =>
        rw [hmn] at hq
        cases hmx : pySeriesMaxInt ((colValues t "year").filter (fun v => !(v == Value.vnull))) with
        | error e2 => rw [hmx] at hq; simp at hq
        | ok mx =>
          rw [hmx] at hq
          dsimp only at hq
          injection hq with hq
          subst hq
          have hbp : (t.cols.contains "record_type" && t.cols.contains "pillar"
              && decide (0 < (ofKind t "observation").length)) = false := by
            rw [hp]; simp
          dsimp only
          rw [hbp]
          simp
    · rw [if_neg hY] at hq
      injection hq with hq
      subst hq
      have hbp : (t.cols.contains "record_type" && t.cols.contains "pillar"
          && decide (0 < (ofKind t "observation").length)) = false := by
        rw [hp]; simp
      dsimp only
      rw [hbp]
      simp

theorem filter_length_pos_iff (l : List Row) (p : Row → Bool) :
    0 < (l.filter p).length ↔ ∃ r ∈ l, p r = true := by
  constructor
  · intro h
    obtain ⟨r, hr⟩ := List.exists_mem_of_ne_nil _ (List.length_pos.mp h)
    exact ⟨r, (List.mem_filter.mp hr).1, (List.mem_filter.mp hr).2⟩
  · rintro ⟨r, hrl, hrp⟩
    exact List.length_pos.mpr (List.ne_nil_of_mem (List.mem_filter.mpr ⟨hrl, hrp⟩))

/-- Claim C5: `validate_impact_links` returns true on every table; the
unresolved-reference scans only feed warnings. -/
theorem claim_C5 (df : Table) : validate_impact_links df = true := by
  unfold validate_impact_links
  by_cases h : (df.rows.isEmpty || !df.cols.contains "record_type") = true <;> simp [h]

/-- Claim C9: `validate_record_type` returns false when the `record_type`
column is absent, and otherwise returns false iff some row's value lies
outside the six-member enumeration. -/
theorem claim_C9 (df : Table) :
    validate_record_type df = false ↔
      (df.cols.contains "record_type" = false ∨
        ∃ r ∈ df.rows, isValidType (cell r "record_type") = false) := by
  unfold validate_record_type
  cases h : df.cols.contains "record_type" with
  | false => simp
  | true =>
    simp only [h, Bool.not_true, Bool.false_eq_true, if_false]
    by_cases h2 : 0 < (df.rows.filter (fun r => !isValidType (cell r "record_type"))).length
    · rw [if_pos h2]
      rw [filter_length_pos_iff] at h2
      obtain ⟨r, hrl, hb⟩ := h2
      refine ⟨fun _ => Or.inr ⟨r, hrl, ?_⟩, fun _ => rfl⟩
      cases hv : isValidType (cell r "record_type")
      · rfl
      · rw [hv] at hb; exact absurd hb (by simp)
    · rw [if_neg h2]
      rw [filter_length_pos_iff] at h2
      constructor
      · intro ht; exact absurd ht (by simp)
      · rintro (hc | ⟨r, hrl, hrp⟩)
        · exact absurd hc (by simp)
        · exact absurd ⟨r, hrl, by simp [hrp]⟩ h2

theorem claim_C9_witness :
    validate_record_type ⟨["year"], [[("year", .vint 2020)]]⟩ = false :=
  (claim_C9 ⟨["year"], [[("year", .vint 2020)]]⟩).mpr (Or.inl rfl)

/-- Claim C8: `add_observation` raises a validation error iff the pillar
argument is outside {access, usage}. -/
theorem claim_C8 (df : Table) (y : Int) (v : Rat) (p st c : String) (m : Row) :
    okB (add_observation df y v p st c m) = true ↔ (p = "access" ∨ p = "usage") := by
  unfold add_observation
  by_cases hp : (p == "access" || p == "usage") = true
  · rw [if_neg (by simp [hp])]
    simp only [okB]
    refine ⟨fun _ => by simpa using hp, fun _ => trivial⟩
  · have h1 : (!(p == "access" || p == "usage")) = true := by
      cases hb : (p == "access" || p == "usage")
      · rfl
      · exact absurd hb hp
    rw [if_pos h1]
    simp only [okB]
    constructor
    · intro hf; exact absurd hf (by simp)
    · intro hor
      exfalso; apply hp
      rcases hor with h | h <;> simp [h]

theorem claim_C8_witness :
    okB (add_observation Table.empty 2020 40 "savings" "src" "high" []) = false := by
  cases h : okB (add_observation Table.empty 2020 40 "savings" "src" "high" [])
  · rfl
  · exact absurd ((claim_C8 Table.empty 2020 40 "savings" "src" "high" []).mp h) (by decide)

/-- Claim C6 (amended): for any metadata mapping that does not itself bind
the key `pillar`, the row appended by `add_event` has a null/absent pillar
value, regardless of the input table's columns. -/
theorem claim_C6_amended (df : Table) (y : Int) (en et st c : String) (m : Row)
    (hm : List.lookup "pillar" m = none) :
    (add_event df y en et st c m).rows
        = df.rows ++ [mkRecordRow (eventBase y en et st c) m df.cols] ∧
    cell (mkRecordRow (eventBase y en et st c) m df.cols) "pillar" = .vnull := by
  constructor
  · rfl
  · rw [cell_mkRecordRow _ _ _ _ hm]; rfl

/-- Claim C6 counterexample: a metadata mapping carrying a `pillar` key is
merged into the new record, so the appended event row gets a non-null
pillar. -/
theorem claim_C6_counterexample :
    (add_event Table.empty 2020 "E" "policy" "s" "high"
        [("pillar", .vstr "access")]).rows.map (fun r => cell r "pillar")
      = [.vstr "access"] := rfl

theorem claim_C6_witness :
    (add_event Table.empty 2021 "E" "policy" "s" "high" [("note", .vstr "x")]).rows
        = Table.empty.rows ++ [mkRecordRow (eventBase 2021 "E" "policy" "s" "high")
            [("note", .vstr "x")] Table.empty.cols] ∧
    cell (mkRecordRow (eventBase 2021 "E" "policy" "s" "high") [("note", .vstr "x")]
        Table.empty.cols) "pillar" = .vnull :=
  claim_C6_amended Table.empty 2021 "E" "policy" "s" "high" [("note", .vstr "x")] rfl

/-- Claim C2 counterexample: on the empty table (no columns at all) every
one of the four read helpers raises a KeyError instead of returning an
empty result. -/
theorem claim_C2_counterexample :
    okB (get_observations_by_pillar Table.empty "access") = false ∧
    okB (get_events_by_year Table.empty none) = false ∧
    okB (get_impact_links_for_event Table.empty 0) = false ∧
    okB (get_events_with_impacts Table.empty) = false :=
  ⟨rfl, rfl, rfl, rfl⟩

theorem claim_C2_witness :
    okB (get_observations_by_pillar tC2w "access") = true ∧
    okB (get_events_by_year tC2w none) = true ∧
    okB (get_events_by_year tC2w (some 2020)) = true ∧
    okB (get_impact_links_for_event tC2w 0) = true ∧
    okB (get_events_with_impacts tC2w) = true := by
  obtain ⟨h1, h2, h3, h4, h5⟩ := claim_C2_amended tC2w "access" 2020 0
  exact ⟨h1 rfl rfl, h2 rfl, h3 rfl rfl, h4 rfl rfl, h5 rfl rfl rfl⟩

theorem claim_C3_witness :
    invariants (add_event tC3w 2021 "E" "policy" "s" "high" [("note", .vstr "x")]) = true :=
  (claim_C3_amended tC3w [("note", .vstr "x")] (by decide)
    (by decide)).2.1 2021 "E" "policy" "s" "high"

/-- Claim C3 counterexample: starting from an invariant-satisfying table, a
successful `add_event` whose metadata carries `pillar` breaks invariant 2. -/
theorem claim_C3_counterexample :
    invariants tC3a = true ∧
    invariants (add_event tC3a 2021 "F" "policy" "s" "high"
      [("pillar", .vstr "access")]) = false :=
  ⟨rfl, rfl⟩

theorem claim_C4_witness :
    (okB (add_impact_link tC4w 0 1 "positive" "high" []) = true ↔
      (refOk tC4w 0 "event" = true ∧ refOk tC4w 1 "observation" = true)) ∧
    add_impact_link tC4w 0 1 "positive" "high" [] =
      .ok (appendRecord tC4w (linkBase 0 1 "positive" "high") []) := by
  obtain ⟨h1, h2⟩ := claim_C4 tC4w 0 1 "positive" "high" []
  exact ⟨h1, (h2 (by decide) (by decide)).1⟩

theorem claim_C10_witness :
    add_impact_link tC10w 0 1 "sideways" "weird" [] =
      .ok (appendRecord tC10w (linkBase 0 1 "sideways" "weird") []) ∧
    (appendRecord tC10w (linkBase 0 1 "sideways" "weird") []).rows
      = tC10w.rows ++ [mkRecordRow (linkBase 0 1 "sideways" "weird") [] tC10w.cols] ∧
    cell (mkRecordRow (linkBase 0 1 "sideways" "weird") [] tC10w.cols) "impact_direction"
      = .vstr "sideways" ∧
    cell (mkRecordRow (linkBase 0 1 "sideways" "weird") [] tC10w.cols) "confidence"
      = .vstr "weird" :=
  claim_C10 tC10w 0 1 "sideways" "weird" (by decide) (by decide)

theorem claim_C7_witness :
    okB (quantify_dataset_composition tC7w) = true ∧ sC7w.by_pillar = [] :=
  ⟨(claim_C7_amended tC7w sC7w).1 (by decide),
   (claim_C7_amended tC7w sC7w).2.2 rfl rfl⟩

/-- Claim C7 counterexample: a `year` column holding the non-numeric string
"abc" reaches the `int(df['year'].min())` conversion, which raises. -/
theorem claim_C7_counterexample :
    quantify_dataset_composition ⟨["year"], [[("year", .vstr "abc")]]⟩
      = .error "ValueError: int() literal" := by rfl

/-- Claim C1 counterexample: the end-to-end pipeline succeeds, but the one
summary row produced by `get_events_with_impacts` has indicator "Unknown"
and event_name "Event 0" — not "access" and "Policy X" as claimed — because
the dashboard join assumes 1-based `record_id` references while
`add_impact_link` stores 0-based row indices. -/
theorem claim_C1_counterexample :
    add_observation demoT1 2020 40 "access" "survey" "high" [] = .ok demoT2 ∧
    add_impact_link demoT2 0 1 "positive" "high" [] = .ok demoT3 ∧
    get_events_with_impacts demoT3 =
      .ok [{ event_name := .vstr "Event 0", event_year := .vnull,
             indicator := .vstr "Unknown", direction := .vstr "positive",
             magnitude := .vnull, lag_months := .vnull }] :=
  ⟨rfl, rfl, rfl⟩

/-- Claim C1 (amended): in the end-to-end scenario,
`get_impact_links_for_event` returns exactly one row, and
`get_events_with_impacts` returns exactly one summary row with direction
"positive" — but with indicator "Unknown" and event_name "Event 0" due to
the 0-based/1-based reference mismatch between the two modules. -/
theorem claim_C1_amended :
    (get_impact_links_for_event demoT3 0).map List.length = .ok 1 ∧
    get_events_with_impacts demoT3 =
      .ok [{ event_name := .vstr "Event 0", event_year := .vnull,
             indicator := .vstr "Unknown", direction := .vstr "positive",
             magnitude := .vnull, lag_months := .vnull }] :=
  ⟨rfl, rfl⟩

end EthioPulse
